import Mathlib

/-!
Verification of the stub-generation core in `pyo3_stubgen/generate.py`.

Python strings are modelled as lists of characters (`PyStr`), so every string
operation used by the source is structurally recursive and kernel-computable.
Python objects are modelled by the attributes the source actually reads:
runtime type, `__name__`, `__text_signature__` and `__doc__` (plus, for a
class, its resolved `dir` contents).  Raised exceptions are modelled with
`Except`.
-/

/-- Python strings, modelled as lists of characters. -/
abbrev PyStr := List Char

/-- Embed a Lean string literal as a modelled Python string. -/
def pys (s : String) : PyStr := s.toList

/--
Runtime types relevant to `generate.py`.  In CPython,
`types.BuiltinMethodType` is an alias of `types.BuiltinFunctionType`; the two
tags are kept separate here, which does not change any membership test the
source performs.  The non-callable tags (`int`, `str`, `NoneType`, `module`)
stand for the unsupported runtime types a module or dispatch call can see.
-/
inductive PyType where
  | BuiltinFunctionType
  | MethodDescriptorType
  | BuiltinMethodType
  | type
  | int
  | str
  | NoneType
  | module
  deriving DecidableEq

/-- The ASCII whitespace characters removed by Python `str.strip()`. -/
def pyWhitespace : List Char := [' ', '\t', '\n', '\r', '\x0b', '\x0c']

/-- Python `s.strip(chars)`: remove leading and trailing characters drawn
from `chars`. -/
def pyStrip (chars : List Char) (s : PyStr) : PyStr :=
  ((s.dropWhile (fun c => chars.contains c)).reverse.dropWhile
    (fun c => chars.contains c)).reverse

/-- Python `s.strip()` with no argument (ASCII whitespace). -/
def pyStripWs (s : PyStr) : PyStr := pyStrip pyWhitespace s

/-- Python `s.split(sep)` for a one-character separator: split at every
occurrence of the character; the empty string yields one empty chunk. -/
def splitOnChar (c : Char) : PyStr → List PyStr
  | [] => [[]]
  | a :: as =>
    if a = c then [] :: splitOnChar c as
    else
      match splitOnChar c as with
      | [] => [[a]]
      | h :: t => (a :: h) :: t

/-- Python `s.split(", ")`: split at each non-overlapping occurrence of the
two-character separator, scanning left to right. -/
def splitCommaSpace : PyStr → List PyStr
  | [] => [[]]
  | [a] => [[a]]
  | a :: b :: rest =>
    if a = ',' ∧ b = ' ' then [] :: splitCommaSpace rest
    else
      match splitCommaSpace (b :: rest) with
      | [] => [[a]]
      | h :: t => (a :: h) :: t

/-- Python `s.splitlines(keepends=True)`, for the line boundaries that can
occur here: LF, CRLF and CR. -/
def splitlinesKeepends : PyStr → List PyStr
  | [] => []
  | a :: as =>
    if a = '\n' then ['\n'] :: splitlinesKeepends as
    else if a = '\r' then
      match as with
      | [] => [['\r']]
      | b :: bs =>
        if b = '\n' then ['\r', '\n'] :: splitlinesKeepends bs
        else ['\r'] :: splitlinesKeepends (b :: bs)
    else
      match splitlinesKeepends as with
      | [] => [[a]]
      | h :: t => (a :: h) :: t

/-- Python `textwrap.indent(text, pre)` with the default predicate: prepend
`pre` to every line whose `strip()` is non-empty (i.e. every line that has a
non-whitespace character). -/
def textwrap_indent (text : PyStr) (pre : PyStr) : PyStr :=
  ((splitlinesKeepends text).map
    (fun line => if pyStripWs line ≠ [] then pre ++ line else line)).flatten

/-- Clauses of a signature string: `sig.strip(" ()").split(", ")` with each
piece stripped of whitespace (generate.py line 29). -/
def clausesOf (sig : PyStr) : List PyStr :=
  (splitCommaSpace (pyStrip (pys " ()") sig)).map pyStripWs

/-- Body of the `for argstr in args` loop of `parse_signature`
(generate.py lines 32-41): `argstr.split("=")` gives the chunks, the first
chunk is the name (`$self` is renamed to `self`), and a default is attached
only when there are exactly two chunks and the second is non-empty.
`argtype` is always `None` in the source, so the `f": {argtype}"` piece is
always empty and omitted here. -/
def parseClause (argstr : PyStr) : PyStr :=
  let spl := splitOnChar '=' argstr
  let argname := spl.headD []
  let argname := if argname = pys "$self" then pys "self" else argname
  let argdef : Option PyStr := if spl.length = 2 then some (spl.getD 1 []) else none
  argname ++
    (match argdef with
     | some d => if d = [] then [] else pys " = " ++ d
     | none => ([] : PyStr))

/-- `parse_signature` (generate.py lines 18-43).  The `docstr` argument is
accepted but unused, exactly as in the source. -/
def parse_signature (sig : PyStr) (docstr : Option PyStr) : PyStr :=
  pys "(" ++ List.intercalate (pys ", ") ((clausesOf sig).map parseClause) ++ pys ")"

/-- `gen_function_entry` (generate.py lines 46-70), applied to the three
attributes the source reads off the function object: `__name__`,
`__text_signature__` (required by the documented precondition) and
`__doc__` (where Python truthiness makes both `None` and the empty string
fall to the `...` placeholder). -/
def gen_function_entry (name sig : PyStr) (doc : Option PyStr) : PyStr :=
  let docBlock :=
    match doc with
    | some d =>
      if d ≠ [] then
        if '\n' ∈ d then
          pys "    \"\"\"\n" ++ textwrap_indent d (pys "    ") ++ pys "\n    \"\"\""
        else
          pys "    \"\"\"" ++ d ++ pys "\"\"\""
      else pys "    ..."
    | none => pys "    ..."
  let signature := parse_signature sig doc
  pys "def " ++ name ++ signature ++ pys ":\n" ++ docBlock ++ pys "\n"

/-- A class member as inspected by `gen_class_entry`: its runtime type,
`__name__`, `__text_signature__` (`some` exactly when the attribute is
present, which is what `hasattr` tests) and `__doc__`. -/
structure PyMember where
  ty : PyType
  name : PyStr
  text_signature : Option PyStr
  doc : Option PyStr
  deriving DecidableEq

/-- A module-level object as seen by `genpyi` and `genentry`.  For a class
object, `members` is the resolved list `[getattr(cls, n) for n in dir(cls)]`
(generate.py line 83); for other objects it is empty and unused. -/
structure PyObj where
  ty : PyType
  name : PyStr
  text_signature : Option PyStr
  doc : Option PyStr
  members : List PyMember
  deriving DecidableEq

/-- The `methods` list comprehension of `gen_class_entry` (generate.py lines
85-91): keep members whose exact runtime type is `MethodDescriptorType` or
`BuiltinMethodType`, which have a `__text_signature__` attribute (the
`match` below is the `hasattr` test), and whose name does not start with a
double underscore; each surviving entry is indented by four spaces. -/
def classMethods (cls : PyObj) : List PyStr :=
  cls.members.filterMap (fun f =>
    match f.text_signature with
    | some sig =>
      if (f.ty = PyType.MethodDescriptorType ∨ f.ty = PyType.BuiltinMethodType)
          ∧ List.isPrefixOf (pys "__") f.name = false then
        some (textwrap_indent (gen_function_entry f.name sig f.doc) (pys "    "))
      else none
    | none => none)

/-- `gen_class_entry` (generate.py lines 73-103). -/
def gen_class_entry (cls : PyObj) : PyStr :=
  let methods := classMethods cls
  let doc :=
    match cls.doc with
    | some d =>
      if d ≠ [] then
        if '\n' ∈ d then
          pys "    \"\"\"\n" ++ textwrap_indent d (pys "    ") ++ pys "\n    \"\"\""
        else pys "    \"\"\"" ++ d ++ pys "\"\"\""
      else if methods = [] then pys "    ..." else []
    | none => if methods = [] then pys "    ..." else []
  let doc2 := doc ++ pys "\n" ++ List.intercalate (pys "\n") methods
  pys "class " ++ cls.name ++ pys ":\n" ++ doc2 ++ pys "\n"

/-- Exceptions the modelled code can raise. -/
inductive PyError where
  | ValueError : PyStr → PyError
  | AttributeError : PyStr → PyError
  deriving DecidableEq

/-- `FUNCTION_TYPES` (generate.py line 15). -/
def FUNCTION_TYPES : List PyType :=
  [PyType.BuiltinFunctionType, PyType.MethodDescriptorType, PyType.BuiltinMethodType]

/-- `SUPPORTED_TYPES` (generate.py line 16). -/
def SUPPORTED_TYPES : List PyType := FUNCTION_TYPES ++ [PyType.type]

/-- The text CPython interpolates for `f"{type(obj)}"` in the error message
of `genentry` (generate.py line 123). -/
def typeRepr : PyType → PyStr
  | PyType.BuiltinFunctionType => pys "<class \x27builtin_function_or_method\x27>"
  | PyType.MethodDescriptorType => pys "<class \x27method_descriptor\x27>"
  | PyType.BuiltinMethodType => pys "<class \x27builtin_function_or_method\x27>"
  | PyType.type => pys "<class \x27type\x27>"
  | PyType.int => pys "<class \x27int\x27>"
  | PyType.str => pys "<class \x27str\x27>"
  | PyType.NoneType => pys "<class \x27NoneType\x27>"
  | PyType.module => pys "<class \x27module\x27>"

/-- `genentry` (generate.py lines 105-124).  Reading `__text_signature__`
on a function-typed object that lacks the attribute surfaces as an
`AttributeError`, matching the uncaught attribute fetch in the source. -/
def genentry (obj : PyObj) : Except PyError PyStr :=
  if FUNCTION_TYPES.contains obj.ty then
    match obj.text_signature with
    | some sig => Except.ok (gen_function_entry obj.name sig obj.doc)
    | none => Except.error (PyError.AttributeError (pys "__text_signature__"))
  else if obj.ty = PyType.type then Except.ok (gen_class_entry obj)
  else Except.error (PyError.ValueError (pys "Unsupported type " ++ typeRepr obj.ty))

/-- Left-to-right evaluation of `[genentry(obj) for obj in objs ...]`
(generate.py line 143): the first raised exception aborts the whole list. -/
def genentryList : List PyObj → Except PyError (List PyStr)
  | [] => Except.ok []
  | x :: xs =>
    match genentry x with
    | Except.error e => Except.error e
    | Except.ok a =>
      match genentryList xs with
      | Except.error e => Except.error e
      | Except.ok as => Except.ok (a :: as)

/-- The `definitions` list of `genpyi` (generate.py line 143): entries for
the module members whose runtime type is in `SUPPORTED_TYPES`. -/
def definitionsOf (module : List PyObj) : Except PyError (List PyStr) :=
  genentryList (module.filter (fun o => SUPPORTED_TYPES.contains o.ty))

/-- Python `sorted` on a list of strings: the `≤`-sorted permutation, where
`≤` is the lexicographic order on code points.  Because equal strings are
identical, the sorted permutation is unique, so any correct sort yields the
exact list CPython produces. -/
def pySorted (l : List PyStr) : List PyStr :=
  List.insertionSort (fun a b => a ≤ b) l

/-- `genpyi` (generate.py lines 126-145).  A module is modelled as the
resolved list `[getattr(module, n) for n in dir(module)]`. -/
def genpyi (module : List PyObj) : Except PyError PyStr :=
  match definitionsOf module with
  | Except.error e => Except.error e
  | Except.ok definitions =>
    Except.ok (List.intercalate (pys "\n")
      (pys "# flake8: noqa: PYI021" :: pySorted definitions))

/-- Name part of a parameter clause: the text before the first `=`. -/
def clauseName (argstr : PyStr) : PyStr := argstr.takeWhile (fun c => c != '=')

/-- Text after the first `=` of a parameter clause (empty when the clause
has no `=`). -/
def clauseAfterEq (argstr : PyStr) : PyStr :=
  (argstr.dropWhile (fun c => c != '=')).drop 1

/-- The `$self` to `self` renaming applied to a parameter name. -/
def pyRename (n : PyStr) : PyStr := if n = pys "$self" then pys "self" else n

/-- Per-clause rule actually implemented by the code, phrased the way the
amended C2 states it: the name is the text before the first `=`; a default
(joined with a spaced `=`) is emitted exactly when the clause contains one
single `=` and the text after it is non-empty, and that text is then copied
verbatim; a clause whose default text itself contains `=` loses its
default. -/
def parseClauseSpec (argstr : PyStr) : PyStr :=
  if argstr.count '=' = 1 ∧ clauseAfterEq argstr ≠ [] then
    pyRename (clauseName argstr) ++ pys " = " ++ clauseAfterEq argstr
  else pyRename (clauseName argstr)

/-- The synthetic `add` function of the end-to-end scenario: a native
callable named `add`, text signature `(a, b=0)`, docstring
`Add two numbers.`. -/
def addFunction : PyObj :=
  ⟨PyType.BuiltinFunctionType, pys "add", some (pys "(a, b=0)"),
    some (pys "Add two numbers."), []⟩

/-- A second synthetic native function, used to exercise the sort order. -/
def zuluFunction : PyObj :=
  ⟨PyType.BuiltinFunctionType, pys "zulu", some (pys "(x)"), none, []⟩

/-- A synthetic class with one dunder method and one ordinary method. -/
def sampleClass : PyObj :=
  ⟨PyType.type, pys "Point", none, none,
    [⟨PyType.MethodDescriptorType, pys "__init__", some (pys "($self, x)"), none⟩,
     ⟨PyType.MethodDescriptorType, pys "norm", some (pys "($self)"), none⟩]⟩

/-- Equality of modelled computation results is decidable. -/
instance {ε α : Type} [DecidableEq ε] [DecidableEq α] : DecidableEq (Except ε α) :=
  fun x y =>
    match x, y with
    | Except.ok a, Except.ok b =>
      if h : a = b then isTrue (by rw [h]) else isFalse (fun hc => h (Except.ok.inj hc))
    | Except.error a, Except.error b =>
      if h : a = b then isTrue (by rw [h]) else isFalse (fun hc => h (Except.error.inj hc))
    | Except.ok _, Except.error _ => isFalse (fun hc => Except.noConfusion hc)
    | Except.error _, Except.ok _ => isFalse (fun hc => Except.noConfusion hc)

/-! ### Helper lemmas about the string model -/

lemma splitOnChar_ne_nil (c : Char) (s : PyStr) : splitOnChar c s ≠ [] := by
  cases s with
  | nil => simp [splitOnChar]
  | cons a as =>
    rw [splitOnChar]
    by_cases h : a = c
    · simp [h]
    · rw [if_neg h]
      cases hr : splitOnChar c as <;> simp

lemma splitOnChar_head (c : Char) (s : PyStr) :
    (splitOnChar c s).headD [] = s.takeWhile (fun a => a != c) := by
  induction s with
  | nil => simp [splitOnChar]
  | cons a as ih =>
    rw [splitOnChar]
    by_cases h : a = c
    · subst h
      simp [List.takeWhile_cons]
    · rw [if_neg h]
      obtain ⟨hh, tt, heq⟩ := List.exists_cons_of_ne_nil (splitOnChar_ne_nil c as)
      rw [heq] at ih ⊢
      simp only [List.headD_cons] at ih
      simp [List.takeWhile_cons, bne_iff_ne, h, ← ih]

lemma splitOnChar_length (c : Char) (s : PyStr) :
    (splitOnChar c s).length = s.count c + 1 := by
  induction s with
  | nil => simp [splitOnChar]
  | cons a as ih =>
    rw [splitOnChar]
    by_cases h : a = c
    · subst h
      simp [List.count_cons, ih]
    · rw [if_neg h]
      obtain ⟨hh, tt, heq⟩ := List.exists_cons_of_ne_nil (splitOnChar_ne_nil c as)
      rw [heq] at ih ⊢
      simp only [List.length_cons] at ih ⊢
      simp [List.count_cons, h, ih]

lemma splitOnChar_count_zero (c : Char) (s : PyStr) (h : s.count c = 0) :
    splitOnChar c s = [s] := by
  induction s with
  | nil => simp [splitOnChar]
  | cons a as ih =>
    rw [List.count_cons] at h
    by_cases hac : a = c
    · simp [hac] at h
    · rw [splitOnChar, if_neg hac, ih (by simpa [hac] using h)]

lemma splitOnChar_count_one (c : Char) (s : PyStr) (h : s.count c = 1) :
    splitOnChar c s
      = [s.takeWhile (fun a => a != c), (s.dropWhile (fun a => a != c)).drop 1] := by
  induction s with
  | nil => simp at h
  | cons a as ih =>
    rw [List.count_cons] at h
    by_cases hac : a = c
    · subst hac
      have h0 : as.count a = 0 := by simpa using h
      rw [splitOnChar, if_pos rfl, splitOnChar_count_zero a as h0]
      simp [List.takeWhile_cons, List.dropWhile_cons]
    · have h1 : as.count c = 1 := by simpa [hac] using h
      rw [splitOnChar, if_neg hac, ih h1]
      simp [List.takeWhile_cons, List.dropWhile_cons, bne_iff_ne, hac]

lemma splitOnChar_head' (c : Char) (s : PyStr) :
    (splitOnChar c s).head?.getD [] = s.takeWhile (fun a => a != c) := by
  obtain ⟨hh, tt, heq⟩ := List.exists_cons_of_ne_nil (splitOnChar_ne_nil c s)
  have h2 := splitOnChar_head c s
  rw [heq] at h2 ⊢
  simpa using h2

lemma parseClause_eq_spec (s : PyStr) : parseClause s = parseClauseSpec s := by
  by_cases h1 : s.count '=' = 1
  · have hsp := splitOnChar_count_one '=' s h1
    by_cases h2 : (s.dropWhile (fun a => a != '=')).tail = []
    · simp [parseClause, parseClauseSpec, clauseName, clauseAfterEq, pyRename, hsp, h1, h2,
        List.drop_one]
    · simp [parseClause, parseClauseSpec, clauseName, clauseAfterEq, pyRename, hsp, h1, h2,
        List.drop_one, List.append_assoc]
  · have hlen : (splitOnChar '=' s).length ≠ 2 := by
      rw [splitOnChar_length]
      omega
    simp [parseClause, parseClauseSpec, clauseName, clauseAfterEq, pyRename,
      splitOnChar_head', h1, hlen]

/-! ### Claim theorems -/

/-- C2 counterexample: for the clause `x=1==2`, whose default text `1==2`
contains `=`, the code does not copy the right side of the first `=`
verbatim; `split("=")` yields four chunks, so the default is dropped
entirely and only the bare name survives. -/
theorem parseClause_counterexample_eq_in_default :
    parse_signature (pys "(x=1==2)") none = pys "(x)"
      ∧ parse_signature (pys "(x=1==2)") none ≠ pys "(x = 1==2)"
      ∧ parse_signature (pys "(x=1==2)") none ≠ pys "(x=1==2)" := by
  refine ⟨by decide, by decide, by decide⟩

/-- C2 (amended): each clause is processed as follows: the text before the
first `=` is the parameter name; a default is emitted exactly when the
clause contains one single `=` and the text after it is non-empty, in which
case that text is copied verbatim and joined with a spaced `=`; a clause
with two or more `=` (i.e. a default whose literal text contains `=`)
loses its default and only the name is emitted. -/
theorem parse_signature_first_eq_rule (sig : PyStr) (docstr : Option PyStr) :
    parse_signature sig docstr
      = pys "(" ++ List.intercalate (pys ", ")
          ((clausesOf sig).map parseClauseSpec) ++ pys ")" := by
  unfold parse_signature
  rw [show parseClause = parseClauseSpec from funext parseClause_eq_spec]

/-- C6 counterexample: in a signature containing `$self`, a parameter whose
literal default text contains `=` does not keep that default verbatim: the
default is dropped altogether. -/
theorem parse_signature_self_counterexample :
    parse_signature (pys "($self, y=1==2)") none = pys "(self, y)"
      ∧ parse_signature (pys "($self, y=1==2)") none ≠ pys "(self, y = 1==2)"
      ∧ parse_signature (pys "($self, y=1==2)") none ≠ pys "(self, y=1==2)" := by
  refine ⟨by decide, by decide, by decide⟩

/-- C6 (amended): the output parameter list is the clause list mapped in
order through the per-clause transformation, so parameter order is
preserved and `$self` is renamed to `self`; each output parameter is the
renamed name followed either by nothing or by a spaced `=` and the text
after the first `=` of its clause — the latter exactly when the clause has
one single `=` with non-empty text after it (defaults whose text contains
`=` are dropped, not preserved). -/
theorem parse_signature_self_rename_order (sig : PyStr) (docstr : Option PyStr) :
    parse_signature sig docstr
      = pys "(" ++ List.intercalate (pys ", ")
          ((clausesOf sig).map parseClause) ++ pys ")"
    ∧ ∀ a ∈ clausesOf sig, ∃ tail,
        parseClause a = pyRename (clauseName a) ++ tail
        ∧ (tail = []
           ∨ (tail = pys " = " ++ clauseAfterEq a
              ∧ a.count '=' = 1 ∧ clauseAfterEq a ≠ [])) := by
  refine ⟨rfl, ?_⟩
  intro a _
  rw [parseClause_eq_spec]
  unfold parseClauseSpec
  by_cases h : a.count '=' = 1 ∧ clauseAfterEq a ≠ []
  · refine ⟨pys " = " ++ clauseAfterEq a, ?_, Or.inr ⟨rfl, h⟩⟩
    rw [if_pos h, List.append_assoc]
  · exact ⟨[], by rw [if_neg h, List.append_nil], Or.inl rfl⟩

/-- C6 witness: the theorem applied to the signature `(a, b=1, $self)` at
its clause `$self`. -/
theorem parse_signature_self_rename_order_witness :
    ∃ tail,
      parseClause (pys "$self") = pyRename (clauseName (pys "$self")) ++ tail
      ∧ (tail = []
         ∨ (tail = pys " = " ++ clauseAfterEq (pys "$self")
            ∧ (pys "$self").count '=' = 1 ∧ clauseAfterEq (pys "$self") ≠ [])) :=
  (parse_signature_self_rename_order (pys "(a, b=1, $self)") none).2
    (pys "$self") (by decide)

/-- C9: a zero-argument signature, with any number of spaces between the
parentheses, parses to exactly `()`: stripping leaves the empty string,
whose split contributes a single empty clause, which renders as the empty
parameter and disappears in the comma join. -/
theorem parse_signature_zero_args (k : Nat) (docstr : Option PyStr) :
    parse_signature ('(' :: (List.replicate k ' ' ++ [')'])) docstr = pys "()" := by
  have hstrip : pyStrip (pys " ()") ('(' :: (List.replicate k ' ' ++ [')'])) = [] := by
    unfold pyStrip
    have h1 : List.dropWhile (fun c => (pys " ()").contains c)
        ('(' :: (List.replicate k ' ' ++ [')'])) = [] := by
      rw [List.dropWhile_eq_nil_iff]
      intro x hx
      rcases List.mem_cons.mp hx with rfl | hx2
      · decide
      rcases List.mem_append.mp hx2 with hx3 | hx4
      · obtain ⟨-, rfl⟩ := List.mem_replicate.mp hx3
        decide
      · rcases List.mem_singleton.mp hx4 with rfl
        decide
    rw [h1]
    rfl
  unfold parse_signature clausesOf
  rw [hstrip]
  rfl

/-- C8: the model of `genpyi` is a pure function of the module contents, so
two calls on the same (unchanged) module value return byte-identical
output text. -/
theorem genpyi_deterministic (module : List PyObj) : genpyi module = genpyi module := rfl

/-- C1 counterexample: for the synthetic module whose only supported member
is `add` with text signature `(a, b=0)` and docstring `Add two numbers.`,
the output claimed by the spec (blank line after the header, default
spelled `b=0`) is not what the code returns: there is no blank line after
the header and the default is spelled `b = 0`. -/
theorem genpyi_add_counterexample :
    genpyi [addFunction]
      ≠ Except.ok (pys "# flake8: noqa: PYI021\n\ndef add(a, b=0):\n    \"\"\"Add two numbers.\"\"\"\n")
    ∧ genpyi [addFunction]
      = Except.ok (pys "# flake8: noqa: PYI021\ndef add(a, b = 0):\n    \"\"\"Add two numbers.\"\"\"\n") := by
  refine ⟨by decide, rfl⟩

/-- C1 (amended): for every module whose members of supported kind are
exactly the one function `add` with text signature `(a, b=0)` and docstring
`Add two numbers.`, `genpyi` returns the header line, a single newline (no
blank line), then `def add(a, b = 0):` with the docstring line — i.e. the
default is rendered with spaces around `=`. -/
theorem genpyi_add_module (m : List PyObj)
    (h : m.filter (fun o => SUPPORTED_TYPES.contains o.ty) = [addFunction]) :
    genpyi m
      = Except.ok (pys "# flake8: noqa: PYI021\ndef add(a, b = 0):\n    \"\"\"Add two numbers.\"\"\"\n") := by
  unfold genpyi definitionsOf
  rw [h]
  decide

/-- C1 witness: a module carrying one unsupported member (its docstring, a
plain string) and the `add` function. -/
theorem genpyi_add_module_witness :
    genpyi [⟨PyType.str, pys "__doc__", none, none, []⟩, addFunction]
      = Except.ok (pys "# flake8: noqa: PYI021\ndef add(a, b = 0):\n    \"\"\"Add two numbers.\"\"\"\n") :=
  genpyi_add_module [⟨PyType.str, pys "__doc__", none, none, []⟩, addFunction] (by decide)

lemma append_chunk (u v w : PyStr) (h : u ++ v = w) (Z : PyStr) :
    u ++ (v ++ Z) = w ++ Z := by
  rw [← h, List.append_assoc]

/-- C5: output shape of `gen_function_entry` in the three documentation
cases: absent documentation yields the `...` placeholder body; single-line
documentation yields an inline triple-quoted string; documentation with a
line break yields a triple-quoted block holding the text indented by four
spaces.  In every case the overall shape is
`def <name><parsed-signature>:\n<doc-block>\n`. -/
theorem gen_function_entry_doc_cases (name sig doc : PyStr) :
    gen_function_entry name sig none
      = pys "def " ++ name ++ parse_signature sig none ++ pys ":\n    ...\n"
    ∧ (doc ≠ [] → '\n' ∈ doc →
      gen_function_entry name sig (some doc)
        = pys "def " ++ name ++ parse_signature sig (some doc) ++ pys ":\n    \"\"\"\n"
            ++ textwrap_indent doc (pys "    ") ++ pys "\n    \"\"\"\n")
    ∧ (doc ≠ [] → '\n' ∉ doc →
      gen_function_entry name sig (some doc)
        = pys "def " ++ name ++ parse_signature sig (some doc) ++ pys ":\n    \"\"\""
            ++ doc ++ pys "\"\"\"\n") := by
  refine ⟨?_, ?_, ?_⟩
  · simp only [gen_function_entry, List.append_assoc]
    rw [show pys "    ..." ++ pys "\n" = pys "    ...\n" from by decide]
    rw [show pys ":\n" ++ pys "    ...\n" = pys ":\n    ...\n" from by decide]
  · intro hne hnl
    simp only [gen_function_entry, hne, hnl, ne_eq, not_false_eq_true, if_true,
      List.append_assoc]
    rw [show pys "\n    \"\"\"" ++ pys "\n" = pys "\n    \"\"\"\n" from by decide]
    rw [append_chunk (pys ":\n") (pys "    \"\"\"\n") (pys ":\n    \"\"\"\n") (by decide)]
  · intro hne hnl
    simp only [gen_function_entry, hne, hnl, ne_eq, not_false_eq_true, if_true,
      if_false, List.append_assoc]
    rw [show pys "\"\"\"" ++ pys "\n" = pys "\"\"\"\n" from by decide]
    rw [append_chunk (pys ":\n") (pys "    \"\"\"") (pys ":\n    \"\"\"") (by decide)]

/-- C5 witness: the multi-line documentation case at a concrete callable. -/
theorem gen_function_entry_doc_cases_witness :
    gen_function_entry (pys "f") (pys "(a)") (some (pys "l1\nl2"))
      = pys "def " ++ pys "f" ++ parse_signature (pys "(a)") (some (pys "l1\nl2"))
          ++ pys ":\n    \"\"\"\n" ++ textwrap_indent (pys "l1\nl2") (pys "    ")
          ++ pys "\n    \"\"\"\n" :=
  (gen_function_entry_doc_cases (pys "f") (pys "(a)") (pys "l1\nl2")).2.1
    (by decide) (by decide)

lemma genentry_not_valueerror (obj : PyObj)
    (h : SUPPORTED_TYPES.contains obj.ty = true) :
    ∀ msg, genentry obj ≠ Except.error (PyError.ValueError msg) := by
  obtain ⟨ty, nm, sigo, doc, mem⟩ := obj
  intro msg hc
  cases ty <;> cases sigo <;>
    first
      | exact absurd h (by dsimp only; decide)
      | exact Except.noConfusion hc
      | exact PyError.noConfusion (Except.error.inj hc)

/-- C4: `genentry` raises `ValueError` with a message identifying the
offending type exactly on objects of unsupported runtime type; on the
recognized native-callable kinds it delegates to the function generator,
and on exactly the class kind it delegates to the class generator; on
supported kinds it never raises the unsupported-type error. -/
theorem genentry_dispatch (obj : PyObj) :
    (SUPPORTED_TYPES.contains obj.ty = false →
      genentry obj
        = Except.error (PyError.ValueError (pys "Unsupported type " ++ typeRepr obj.ty)))
    ∧ (FUNCTION_TYPES.contains obj.ty = true → ∀ sig, obj.text_signature = some sig →
      genentry obj = Except.ok (gen_function_entry obj.name sig obj.doc))
    ∧ (obj.ty = PyType.type → genentry obj = Except.ok (gen_class_entry obj))
    ∧ (SUPPORTED_TYPES.contains obj.ty = true →
      ∀ msg, genentry obj ≠ Except.error (PyError.ValueError msg)) := by
  obtain ⟨ty, nm, sigo, doc, mem⟩ := obj
  refine ⟨?_, ?_, ?_, ?_⟩
  · intro h
    cases ty <;> first | exact absurd h (by dsimp only; decide) | rfl
  · intro h sig hsig
    cases ty <;>
      first
        | exact absurd h (by dsimp only; decide)
        | (dsimp only at hsig; subst hsig; rfl)
  · intro h
    cases ty <;> first | rfl | simp at h
  · exact fun h msg => genentry_not_valueerror ⟨ty, nm, sigo, doc, mem⟩ h msg

/-- C4 witness: dispatch on a plain integer raises the unsupported-type
error. -/
theorem genentry_dispatch_witness :
    genentry ⟨PyType.int, pys "x", none, none, []⟩
      = Except.error (PyError.ValueError
          (pys "Unsupported type " ++ typeRepr PyType.int)) :=
  (genentry_dispatch ⟨PyType.int, pys "x", none, none, []⟩).1 (by decide)

/-- C7: every method entry emitted by the class generator comes from a
member whose name does not start with a double underscore (and which is of
one of the two recognized native-callable kinds and has a
`__text_signature__`); hence dunder-named members never contribute an
entry, even when they are of a recognized kind with a parsable signature. -/
theorem gen_class_entry_no_dunder (cls : PyObj) (s : PyStr)
    (h : s ∈ classMethods cls) :
    ∃ f ∈ cls.members,
      List.isPrefixOf (pys "__") f.name = false
      ∧ (f.ty = PyType.MethodDescriptorType ∨ f.ty = PyType.BuiltinMethodType)
      ∧ ∃ sig, f.text_signature = some sig
          ∧ s = textwrap_indent (gen_function_entry f.name sig f.doc) (pys "    ") := by
  unfold classMethods at h
  rw [List.mem_filterMap] at h
  obtain ⟨f, hfm, hf⟩ := h
  refine ⟨f, hfm, ?_⟩
  split at hf
  next sig hsig =>
    split at hf
    next hcond =>
      exact ⟨hcond.2, hcond.1, sig, hsig, (Option.some.inj hf).symm⟩
    next hcond => exact Option.noConfusion hf
  next hsig => exact Option.noConfusion hf

/-- C7 witness: in `sampleClass`, the single emitted entry is the one of
the non-dunder method `norm`. -/
theorem gen_class_entry_no_dunder_witness :
    ∃ f ∈ sampleClass.members,
      List.isPrefixOf (pys "__") f.name = false
      ∧ (f.ty = PyType.MethodDescriptorType ∨ f.ty = PyType.BuiltinMethodType)
      ∧ ∃ sig, f.text_signature = some sig
          ∧ pys "    def norm(self):\n        ...\n"
              = textwrap_indent (gen_function_entry f.name sig f.doc) (pys "    ") :=
  gen_class_entry_no_dunder sampleClass
    (pys "    def norm(self):\n        ...\n") (by decide)

/-- C3: when no entry generation raises, the output of `genpyi` is the
fixed header line followed by the generated entry strings sorted
lexicographically as strings, joined by newlines. -/
theorem genpyi_header_sorted (m : List PyObj) (defs : List PyStr)
    (h : definitionsOf m = Except.ok defs) :
    genpyi m = Except.ok (List.intercalate (pys "\n")
        (pys "# flake8: noqa: PYI021" :: pySorted defs))
    ∧ List.Sorted (fun a b : PyStr => a ≤ b) (pySorted defs)
    ∧ (pySorted defs).Perm defs := by
  refine ⟨?_, List.sorted_insertionSort _ _, List.perm_insertionSort _ _⟩
  unfold genpyi
  rw [h]

/-- C3 witness: a module with two functions whose entries are emitted in
sorted order. -/
theorem genpyi_header_sorted_witness :
    genpyi [zuluFunction, addFunction] = Except.ok (List.intercalate (pys "\n")
        (pys "# flake8: noqa: PYI021" :: pySorted
          [pys "def zulu(x):\n    ...\n",
           pys "def add(a, b = 0):\n    \"\"\"Add two numbers.\"\"\"\n"]))
    ∧ List.Sorted (fun a b : PyStr => a ≤ b) (pySorted
        [pys "def zulu(x):\n    ...\n",
         pys "def add(a, b = 0):\n    \"\"\"Add two numbers.\"\"\"\n"])
    ∧ (pySorted
        [pys "def zulu(x):\n    ...\n",
         pys "def add(a, b = 0):\n    \"\"\"Add two numbers.\"\"\"\n"]).Perm
        [pys "def zulu(x):\n    ...\n",
         pys "def add(a, b = 0):\n    \"\"\"Add two numbers.\"\"\"\n"] :=
  genpyi_header_sorted [zuluFunction, addFunction]
    [pys "def zulu(x):\n    ...\n",
     pys "def add(a, b = 0):\n    \"\"\"Add two numbers.\"\"\"\n"] (by decide)

lemma genentryList_not_valueerror (l : List PyObj)
    (h : ∀ x ∈ l, SUPPORTED_TYPES.contains x.ty = true) :
    ∀ msg, genentryList l ≠ Except.error (PyError.ValueError msg) := by
  induction l with
  | nil => exact fun msg hc => Except.noConfusion hc
  | cons x xs ih =>
    intro msg hc
    unfold genentryList at hc
    split at hc
    next e heq =>
      have he : e = PyError.ValueError msg := Except.error.inj hc
      exact genentry_not_valueerror x (h x (List.mem_cons_self x xs)) msg
        (he ▸ heq)
    next a heq =>
      split at hc
      next e2 heq2 =>
        exact ih (fun y hy => h y (List.mem_cons_of_mem x hy)) msg (heq2.trans hc)
      next as2 heq2 => exact Except.noConfusion hc

/-- C10: every object passing the supported-kind filter of `genpyi` avoids
the error-raising branch of `genentry` (it can never produce the
unsupported-type `ValueError`), and consequently `genpyi` never raises the
unsupported-type error on any module. -/
theorem genpyi_never_unsupported :
    (∀ obj : PyObj, SUPPORTED_TYPES.contains obj.ty = true →
      ∀ msg, genentry obj ≠ Except.error (PyError.ValueError msg))
    ∧ ∀ (module : List PyObj) (msg : PyStr),
        genpyi module ≠ Except.error (PyError.ValueError msg) := by
  refine ⟨genentry_not_valueerror, ?_⟩
  intro module msg hc
  unfold genpyi at hc
  split at hc
  next e heq =>
    refine genentryList_not_valueerror
      (module.filter (fun o => SUPPORTED_TYPES.contains o.ty)) ?_ msg ?_
    · intro x hx
      exact (List.mem_filter.mp hx).2
    · have he : e = PyError.ValueError msg := Except.error.inj hc
      exact he ▸ heq
  next defs heq => exact Except.noConfusion hc

/-- C10 witness: a supported object can never yield the specific
unsupported-type error value. -/
theorem genpyi_never_unsupported_witness :
    genentry addFunction ≠ Except.error (PyError.ValueError (pys "boom")) :=
  genpyi_never_unsupported.1 addFunction (by decide) (pys "boom")
